import Mathlib

/-!
Verification development for the gunlog log-analyzer scripts.

The Python sources (gunlog_traffic.py, gunlog_security.py, gunlog_seo.py,
gunlog_performance.py, gunlog_content.py) are shallowly embedded below:
pure functions become Lean functions, the per-line aggregation loops become
explicit folds over event lists, Python dictionaries become association
lists that keep insertion order, exact numeric work is done in Nat / Int / Rat.
-/

namespace Gunlog

/-- Python datetime.datetime with second precision (microseconds are never
produced by the log parser and are irrelevant to every comparison made). -/
structure PyDateTime where
  year : Nat
  month : Nat
  day : Nat
  hour : Nat
  minute : Nat
  second : Nat
deriving DecidableEq, Repr

/-- Days from 1970-01-01 for a civil date (valid for year at least 1, which
datetime.MINYEAR guarantees).  Standard civil-calendar computation. -/
def daysFromCivil (y m d : Nat) : Int :=
  let y2 := if m ≤ 2 then y - 1 else y
  let era := y2 / 400
  let yoe := y2 - era * 400
  let mp := (m + 9) % 12
  let doy := (153 * mp + 2) / 5 + d - 1
  let doe := yoe * 365 + yoe / 4 - yoe / 100 + doy
  (era : Int) * 146097 + (doe : Int) - 719468

/-- Seconds from the epoch; datetime subtraction and comparison in the
scripts is faithfully mirrored by Int arithmetic on this value. -/
def toSeconds (dt : PyDateTime) : Int :=
  daysFromCivil dt.year dt.month dt.day * 86400
    + dt.hour * 3600 + dt.minute * 60 + dt.second

/-- Python datetime.weekday: Monday = 0 ... Sunday = 6. -/
def pyWeekday (dt : PyDateTime) : Nat :=
  ((daysFromCivil dt.year dt.month dt.day + 3) % 7).toNat

/-- Leap year test as used by the Gregorian calendar (datetime semantics). -/
def isLeapYear (y : Nat) : Bool :=
  y % 4 = 0 && (y % 100 ≠ 0 || y % 400 = 0)

/-- Days in a month, for datetime constructor validation. -/
def daysInMonth (y m : Nat) : Nat :=
  if m = 2 then (if isLeapYear y then 29 else 28)
  else if m = 4 || m = 6 || m = 9 || m = 11 then 30
  else 31

/-- Python datetime.datetime constructor: validates field ranges and raises
(here: returns none) when a field is out of range. -/
def mkDateTime (y : Int) (m : Nat) (d hh mi ss : Int) : Option PyDateTime :=
  if 1 ≤ y ∧ y ≤ 9999 ∧ 1 ≤ m ∧ m ≤ 12 ∧ 1 ≤ d ∧ d ≤ (daysInMonth y.toNat m : Int)
      ∧ 0 ≤ hh ∧ hh ≤ 23 ∧ 0 ≤ mi ∧ mi ≤ 59 ∧ 0 ≤ ss ∧ ss ≤ 59 then
    some ⟨y.toNat, m, d.toNat, hh.toNat, mi.toNat, ss.toNat⟩
  else none

/-- Characters treated as whitespace by Python str.split and int (ASCII part). -/
def isPyWs (c : Char) : Bool :=
  c = ' ' || c = '\t' || c = '\n' || c = '\x0b' || c = '\x0c' || c = '\r'

/-- Value of an all-digit character list. -/
def digitsVal (cs : List Char) : Option Nat :=
  if cs ≠ [] && cs.all Char.isDigit then
    some (cs.foldl (fun a c => a * 10 + (c.toNat - 48)) 0)
  else none

/-- Python int(str): optional surrounding whitespace, optional sign, digits. -/
def pyInt (s : String) : Option Int :=
  let cs := ((s.toList.dropWhile isPyWs).reverse.dropWhile isPyWs).reverse
  match cs with
  | '-' :: rest => (digitsVal rest).map (fun n => -(n : Int))
  | '+' :: rest => (digitsVal rest).map (fun n => (n : Int))
  | _ => (digitsVal cs).map (fun n => (n : Int))

/-- Python s.split(c) with no limit, over character lists. -/
def splitAll (c : Char) : List Char → List (List Char)
  | [] => [[]]
  | x :: xs =>
    if x = c then [] :: splitAll c xs
    else
      match splitAll c xs with
      | [] => [[x]]
      | h :: t => (x :: h) :: t

/-- ASCII lowercasing over the character list (str.lower for the ASCII
data handled by these scripts). -/
def lowerStr (s : String) : String :=
  String.mk (s.toList.map Char.toLower)

/-- Python s.split(c, 1): split at the first occurrence only; none when the
separator does not occur (the script then fails its tuple unpacking). -/
def splitFirst (c : Char) : List Char → Option (List Char × List Char)
  | [] => none
  | x :: xs =>
    if x = c then some ([], xs)
    else (splitFirst c xs).map (fun r => (x :: r.1, r.2))

/-- Python s.split(c, 2) unpacked into exactly three pieces. -/
def split2 (c : Char) (s : List Char) : Option (List Char × List Char × List Char) :=
  (splitFirst c s).bind fun a => (splitFirst c a.2).map fun b => (a.1, b.1, b.2)

/-- Association-list lookup, mirroring Python dict access. -/
def lookupA {κ α : Type} [DecidableEq κ] (l : List (κ × α)) (k : κ) : Option α :=
  (l.find? (fun p => p.1 = k)).map (fun p => p.2)

/-- Association-list insert or update, mirroring Python dict assignment
(an existing key keeps its position, a new key appends: insertion order;
keys are unique throughout, so updating the first occurrence is dict
update). -/
def insertA {κ α : Type} [DecidableEq κ] : List (κ × α) → κ → α → List (κ × α)
  | [], k, v => [(k, v)]
  | x :: xs, k, v => if x.1 = k then (k, v) :: xs else x :: insertA xs k v


/-- Month table of parse_time; get with default 1 reproduces the documented
quirk that an unrecognized month name becomes January. -/
def month_names : List (String × Nat) :=
  [("Jan", 1), ("Feb", 2), ("Mar", 3), ("Apr", 4), ("May", 5), ("Jun", 6),
   ("Jul", 7), ("Aug", 8), ("Sep", 9), ("Oct", 10), ("Nov", 11), ("Dec", 12)]

/-- Body of the try block of parse_time (identical in gunlog_traffic.py,
gunlog_security.py and gunlog_content.py): every statement that can raise
is a none case here. -/
def parse_time_core (time_str : String) : Option (PyDateTime × Nat × Nat) := do
  let dparts ← splitFirst ':' time_str.toList
  let date_part := dparts.1
  let time_part := dparts.2
  let dmy ← match splitAll '/' date_part with
    | [d, m, y] => some (String.mk d, String.mk m, String.mk y)
    | _ => none
  let hmr ← split2 ':' time_part
  let second ← (((hmr.2.2).splitOnP isPyWs).filter (fun t => t ≠ [])).head?
  let month_num := (lookupA month_names dmy.2.1).getD 1
  let yearI ← pyInt dmy.2.2
  let dayI ← pyInt dmy.1
  let hourI ← pyInt (String.mk hmr.1)
  let minuteI ← pyInt (String.mk hmr.2.1)
  let secondI ← pyInt (String.mk second)
  let dt ← mkDateTime yearI month_num dayI hourI minuteI secondI
  some (dt, hourI.toNat, pyWeekday dt)

/-- parse_time as written in the scripts: on any failure inside the try
block it silently returns the current wall-clock time `now` together with
hour 0 and weekday 0; the caller receives no failure signal (the return
type is the same in both cases). -/
def parse_time (now : PyDateTime) (time_str : String) : PyDateTime × Nat × Nat :=
  match parse_time_core time_str with
  | some r => r
  | none => (now, 0, 0)

namespace Perf

/-- Ascending sort, as sorted() does on the collected numeric samples in
calculate_summary_metrics (gunlog_performance.py).  Samples are exact
rationals in this embedding; on rationals every stable ascending sort
computes the same list of values as sorted(). -/
def sortAsc (xs : List ℚ) : List ℚ :=
  xs.insertionSort (fun a b => a ≤ b)

/-- Index used by the percentile lookups: int(len(samples) * p).  For the
non-negative products arising here, Python int() truncation is the floor. -/
def percentileIndex (n : Nat) (p : ℚ) : Nat :=
  Nat.floor ((n : ℚ) * p)

/-- Percentile lookup of calculate_summary_metrics:
sorted(response_times)[int(len(response_times) * p)].  A Python IndexError
is the none case. -/
def percentile (xs : List ℚ) (p : ℚ) : Option ℚ :=
  (sortAsc xs).get? (percentileIndex xs.length p)


end Perf

namespace Security

/-- Security score computed in generate_security_report and (verbatim
again) in generate_plain_text_report of gunlog_security.py: start at 100,
subtract min(50, attack_count), min(20, auth_failures * 5) and
min(20, sensitive_access * 2), each only when the count is positive,
then clamp below at 0. -/
def security_score (attack_count auth_failures sensitive_access : Nat) : Int :=
  let s1 : Int := 100
  let s2 := if attack_count > 0 then s1 - min 50 (attack_count : Int) else s1
  let s3 := if auth_failures > 0 then s2 - min 20 ((auth_failures : Int) * 5) else s2
  let s4 := if sensitive_access > 0 then s3 - min 20 ((sensitive_access : Int) * 2) else s3
  max 0 s4

/-- Atom of the regular expressions appearing in THREAT_PATTERNS: one
character, one-or-more, or zero-or-more occurrences of a character class.
Every pattern in the table is a plain sequence of such atoms. -/
inductive Atom
  | one : (Char → Bool) → Atom
  | many1 : (Char → Bool) → Atom
  | many0 : (Char → Bool) → Atom

/-- Zero-or-more occurrences of a character class followed by whatever the
continuation k accepts, trying every split (backtracking star). -/
def matchMany0 (p : Char → Bool) (k : List Char → Bool) : List Char → Bool
  | [] => k []
  | c :: cs => k (c :: cs) || (p c && matchMany0 p k cs)

/-- Anchored match: does some prefix of s match the atom sequence?  The
rest of the string is ignored, exactly like re.search at a fixed start
position. -/
def matchAtoms : List Atom → List Char → Bool
  | [], _ => true
  | Atom.one p :: as, s =>
    match s with
    | [] => false
    | c :: cs => p c && matchAtoms as cs
  | Atom.many1 p :: as, s =>
    match s with
    | [] => false
    | c :: cs => p c && matchMany0 p (matchAtoms as) cs
  | Atom.many0 p :: as, s => matchMany0 p (matchAtoms as) s

/-- Match starting at any position of the target. -/
def searchFrom (as : List Atom) : List Char → Bool
  | [] => matchAtoms as []
  | c :: cs => matchAtoms as (c :: cs) || searchFrom as cs

/-- re.search with the (?i) flag of every table entry: the patterns are
written lowercase and the target is lowercased before searching. -/
def re_search (as : List Atom) (target : String) : Bool :=
  searchFrom as (target.toList.map Char.toLower)

/-- Literal character sequence. -/
def lit (s : String) : List Atom :=
  s.toList.map (fun c => Atom.one (fun x => x == c))

/-- Python regex backslash-s-plus: one or more whitespace characters. -/
def ws1 : Atom := Atom.many1 isPyWs

/-- Python regex backslash-s-star: zero or more whitespace characters. -/
def ws0 : Atom := Atom.many0 isPyWs

/-- Dot-plus: one or more characters other than a newline. -/
def anyNl1 : Atom := Atom.many1 (fun c => !(c == '\n'))

/-- A single regex dot: any one character other than a newline. -/
def dot1 : Atom := Atom.one (fun c => !(c == '\n'))

/-- Bracket a-to-z plus under the case-insensitive flag: after lowercasing
the target this is one or more ASCII letters. -/
def alpha1 : Atom := Atom.many1 (fun c => decide ('a' ≤ c) && decide (c ≤ 'z'))

/-- THREAT_PATTERNS of gunlog_security.py, each regex transliterated into
its atom sequence (all patterns carry the inline (?i) flag).  The dots in
the source patterns /.git and /.env are unescaped, so each is the regex
any-character wildcard, not a literal dot: the program also flags, for
example, /agit and /xenv as Server Scan. -/
def THREAT_PATTERNS : List (String × List (List Atom)) :=
  [("SQL Injection",
    [lit "union" ++ [ws1] ++ lit "select",
     lit "select" ++ [anyNl1] ++ lit "from",
     lit "1=1",
     lit "or" ++ [ws1] ++ lit "1" ++ [ws0] ++ lit "=",
     lit "drop" ++ [ws1] ++ lit "table"]),
   ("XSS Attack",
    [lit "<script", lit "javascript:", lit "onerror=", lit "onload=",
     lit "onclick="]),
   ("Path Traversal",
    [lit "../", lit "..%2f", lit "/etc/passwd"]),
   ("Command Injection",
    [[Atom.one (fun c => c == ';'), ws0, alpha1],
     [Atom.one (fun c => c == '|'), ws0, alpha1]]),
   ("Server Scan",
    [lit "/admin", lit "/wp-admin", lit "/phpmyadmin",
     lit "/" ++ [dot1] ++ lit "git",
     lit "/" ++ [dot1] ++ lit "env"]),
   ("Suspicious User Agent",
    [lit "sqlmap", lit "nikto", lit "nmap", lit "gobuster", lit "dirbuster"])]

/-- Target strings of detect_threats: request, user agent, and the
referrer with the "-" placeholder blanked out. -/
def targets (request user_agent referrer : String) : List String :=
  [request, user_agent, if referrer ≠ "-" then referrer else ""]

/-- detect_threats of gunlog_security.py.  The source iterates patterns
and targets with break statements: a category is appended once as soon as
some pattern matches some target and never re-examined, which the
any-over-patterns, any-over-targets test reproduces exactly. -/
def detect_threats (request user_agent referrer : String) : List String :=
  THREAT_PATTERNS.foldl
    (fun detected tp =>
      if tp.2.any (fun pat =>
          (targets request user_agent referrer).any (fun t => re_search pat t))
      then detected ++ [tp.1]
      else detected)
    []

/-- Category hit test used by detect_threats for one table entry. -/
def categoryHit (tp : String × List (List Atom))
    (request user_agent referrer : String) : Bool :=
  tp.2.any (fun pat =>
    (targets request user_agent referrer).any (fun t => re_search pat t))


end Security

/-- Counter increment, mirroring collections.Counter `c[k] += 1`. -/
def bump (f : String → Nat) (k : String) : String → Nat :=
  fun u => if u = k then f u + 1 else f u

namespace Traffic

/-- Static file extensions of gunlog_traffic.py (identical lists appear in
parse_access_log and calculate_bounce_rate). -/
def static_extensions : List String :=
  [".jpg", ".jpeg", ".png", ".gif", ".ico", ".css",
   ".js", ".svg", ".woff", ".woff2", ".ttf", ".eot"]

/-- Extension part of os.path.splitext: everything from the last dot of the
final path component, unless every character before that dot in the
component is itself a dot (leading dots never start an extension). -/
def splitextExt (p : String) : String :=
  let b := (p.toList.reverse.takeWhile (fun c => c ≠ '/')).reverse
  match splitFirst '.' b.reverse with
  | none => ""
  | some r =>
    if r.2.any (fun c => c ≠ '.') then String.mk ('.' :: r.1.reverse) else ""

/-- Test os.path.splitext(url)[1].lower() in static_extensions, as done
throughout gunlog_traffic.py. -/
def isStaticUrl (url : String) : Bool :=
  static_extensions.contains (lowerStr (splitextExt url))

/-- Session id data: the script formats f-string ip_timestamp; the pair
(ip, first timestamp) carries exactly that information. -/
abbrev SessionId := String × Int

/-- One matched access-log event as it reaches the session-tracking block
of parse_access_log (after the regex match and the internal-IP skip):
timestamps are epoch seconds of the parsed datetime. -/
structure TEvent where
  ip : String
  t : Int
  url : String
  status : Nat

/-- State of the session-tracking part of parse_access_log in
gunlog_traffic.py.  ip_sessions is the last-seen dict, sessions is
metrics['sessions'], entry_pages / exit_pages are the Counters.
closedSessions is a history field recording, at the moment the script
closes a session by replacing it, exactly the list it discards; it feeds
no other field. -/
structure TState where
  ip_sessions : List (String × Int)
  sessions : List (String × List (Int × String × SessionId))
  entry_pages : String → Nat
  exit_pages : String → Nat
  closedSessions : List (String × List (Int × String × SessionId))

/-- Last url of a session list: session[-1][1]. -/
def lastUrl (l : List (Int × String × SessionId)) : String :=
  ((l.getLast?).map (fun x => x.2.1)).getD ""

/-- Session-tracking body of parse_access_log (gunlog_traffic.py) for one
matched event, including entry-page and exit-page recording.  The gap test
is timestamp - last_time > timedelta(minutes=30), in seconds: > 1800. -/
def trafficStep (st : TState) (e : TEvent) : TState :=
  let is_static := isStaticUrl e.url
  let st2 :=
    match lookupA st.ip_sessions e.ip with
    | some last_time =>
      if e.t - last_time > 1800 then
        let prev := (lookupA st.sessions e.ip).getD []
        let exitP :=
          if prev.length > 0 then bump st.exit_pages (lastUrl prev)
          else st.exit_pages
        let entryP :=
          if is_static = false ∧ e.status = 200 then bump st.entry_pages e.url
          else st.entry_pages
        { st with
          exit_pages := exitP
          entry_pages := entryP
          sessions := insertA st.sessions e.ip [(e.t, e.url, (e.ip, e.t))]
          closedSessions := st.closedSessions ++ [(e.ip, prev)] }
      else
        let cur := (lookupA st.sessions e.ip).getD []
        let sid : SessionId :=
          (cur.head?.map (fun x : Int × String × SessionId => x.2.2)).getD (e.ip, e.t)
        { st with sessions := insertA st.sessions e.ip (cur ++ [(e.t, e.url, sid)]) }
    | none =>
      let entryP :=
        if is_static = false ∧ e.status = 200 then bump st.entry_pages e.url
        else st.entry_pages
      { st with
        entry_pages := entryP
        sessions := insertA st.sessions e.ip [(e.t, e.url, (e.ip, e.t))] }
  { st2 with ip_sessions := insertA st2.ip_sessions e.ip e.t }

/-- End-of-scan flush of parse_access_log: every remaining non-empty
session records its last URL as an exit page. -/
def trafficFinalize (st : TState) : TState :=
  let ep := st.sessions.foldl
    (fun ep kv => if kv.2.length > 0 then bump ep (lastUrl kv.2) else ep)
    st.exit_pages
  { st with exit_pages := ep }

def initT : TState := ⟨[], [], fun _ => 0, fun _ => 0, []⟩

def runTraffic (events : List TEvent) : TState :=
  trafficFinalize (events.foldl trafficStep initT)

/-- All sessions the run produced: the ones closed by a gap followed by the
ones still open at end of stream. -/
def sessionsAll (st : TState) : List (String × List (Int × String × SessionId)) :=
  st.closedSessions ++ st.sessions.filter (fun kv => kv.2 ≠ [])

/-- calculate_bounce_rate of gunlog_traffic.py: for every stored session
build the set of distinct non-static URLs, count the session as a bounce
when that set has exactly one element, and return bounces / sessions * 100
(0 when there are no sessions). -/
def bounceCounts
    (sessions : List (String × List (Int × String × SessionId))) : Nat × Nat :=
  sessions.foldl
    (fun (acc : Nat × Nat) kv =>
      let uniq := ((kv.2.map (fun x => x.2.1)).filter
        (fun u => isStaticUrl u = false)).dedup
      ((if uniq.length = 1 then acc.1 + 1 else acc.1), acc.2 + 1))
    (0, 0)

def calculate_bounce_rate
    (sessions : List (String × List (Int × String × SessionId))) : ℚ :=
  let counts := bounceCounts sessions
  if counts.2 > 0 then (counts.1 : ℚ) / (counts.2 : ℚ) * 100 else 0

/-- Distinct non-static URL count of a stored session, stated the way the
spec phrases the bounce criterion. -/
def distinctNonStatic (sess : List (Int × String × SessionId)) : Nat :=
  ((sess.map (fun x => x.2.1)).filter (fun u => ¬ isStaticUrl u)).toFinset.card

/-- Bounce test exactly as calculate_bounce_rate performs it per session. -/
def isBounceB (kv : String × List (Int × String × SessionId)) : Bool :=
  ((kv.2.map (fun x => x.2.1)).filter
    (fun u => isStaticUrl u = false)).dedup.length = 1


end Traffic

namespace Seo

/-- One event as it reaches the entry/exit tracking block of
parse_access_log in gunlog_seo.py: the bot field records whether the
bot-name detection found a bot (the block is skipped for bots). -/
structure SEvent where
  ip : String
  t : Int
  url : String
  status : Nat
  method : String
  bot : Bool

/-- State of the session block of gunlog_seo.py: last-seen dict, sessions
dict, entry/exit Counters; closedSessions is a history field recording
each session list at the moment the script overwrites it. -/
structure SState where
  ip_last_seen : List (String × Int)
  sessions : List (String × List (Int × String))
  top_entry_pages : String → Nat
  top_exit_pages : String → Nat
  closedSessions : List (String × List (Int × String))

/-- Session block of gunlog_seo.py parse_access_log: the continuation
test is (timestamp - ip_last_seen[ip]) < session_timeout, strict less
than, so a gap of exactly 30 minutes starts a new session here. -/
def seoStep (st : SState) (e : SEvent) : SState :=
  if e.bot then st
  else
    let cont :=
      match lookupA st.ip_last_seen e.ip with
      | some lt => decide (e.t - lt < 1800)
      | none => false
    let st2 :=
      if cont then
        let cur := (lookupA st.sessions e.ip).getD []
        { st with sessions := insertA st.sessions e.ip (cur ++ [(e.t, e.url)]) }
      else
        let entryP :=
          if e.status = 200 ∧ e.method = "GET" then bump st.top_entry_pages e.url
          else st.top_entry_pages
        let prev := (lookupA st.sessions e.ip).getD []
        { st with
          top_entry_pages := entryP
          sessions := insertA st.sessions e.ip [(e.t, e.url)]
          closedSessions :=
            if prev ≠ [] then st.closedSessions ++ [(e.ip, prev)]
            else st.closedSessions }
    { st2 with ip_last_seen := insertA st2.ip_last_seen e.ip e.t }

/-- End-of-scan exit-page flush of gunlog_seo.py. -/
def seoFinalize (st : SState) : SState :=
  let ep := st.sessions.foldl
    (fun ep kv =>
      if kv.2 ≠ [] then bump ep (((kv.2.getLast?).map (fun x => x.2)).getD "")
      else ep)
    st.top_exit_pages
  { st with top_exit_pages := ep }

def initS : SState := ⟨[], [], fun _ => 0, fun _ => 0, []⟩

def runSeo (events : List SEvent) : SState :=
  seoFinalize (events.foldl seoStep initS)

/-- All sessions a gunlog_seo.py run produced: overwritten ones followed
by the ones still present at end of stream. -/
def seoSessionsAll (st : SState) : List (String × List (Int × String)) :=
  st.closedSessions ++ st.sessions.filter (fun kv => kv.2 ≠ [])

end Seo

namespace Content

/-- BOT_PATTERNS of gunlog_content.py. -/
def BOT_PATTERNS : List String :=
  ["bot", "crawl", "spider", "slurp", "baidu", "bing", "google",
   "yandex", "facebook", "archive", "lighthouse", "pagespeed", "pingdom",
   "uptimerobot", "semrush", "ahrefs", "moz", "screaming", "yahoo"]

/-- Does the first list start the second one? -/
def leadsWith : List Char → List Char → Bool
  | [], _ => true
  | _ :: _, [] => false
  | a :: as, b :: bs => a == b && leadsWith as bs

/-- Python substring containment: needle in hay. -/
def containsSub (n : List Char) : List Char → Bool
  | [] => leadsWith n []
  | c :: cs => leadsWith n (c :: cs) || containsSub n cs

/-- is_bot of gunlog_content.py: the lowercased user agent contains any
entry of BOT_PATTERNS. -/
def is_bot (user_agent : String) : Bool :=
  BOT_PATTERNS.any (fun bot => containsSub bot.toList (lowerStr user_agent).toList)

/-- Static extensions of the content analyzer (a shorter list than the
traffic analyzer uses). -/
def content_static_extensions : List String :=
  [".css", ".js", ".jpg", ".jpeg", ".png", ".gif", ".ico", ".svg"]

/-- Static test of gunlog_content.py parse_access_log. -/
def isStaticContent (url : String) : Bool :=
  content_static_extensions.contains (lowerStr (Traffic.splitextExt url))

/-- calculate_reading_time of gunlog_content.py: words = size/6 (bytes),
minutes = words/200, seconds = minutes*60; zero for non-positive sizes. -/
def calculate_reading_time (size : Int) : ℚ :=
  if size ≤ 0 then 0
  else ((size : ℚ) / 6) / 200 * 60

/-- Differences of consecutive elements (the inner revisit-gap loop). -/
def consecutiveDiffs : List Int → List Int
  | a :: b :: r => (b - a) :: consecutiveDiffs (b :: r)
  | _ => []

/-- Revisit gaps of one stored session for one URL, exactly as the
engagement loop computes them: consecutive same-URL visit differences
kept when strictly between 0 and 3600 (the upper bound is strict: a gap
of exactly 3600 seconds is dropped). -/
def session_gaps (url : String) (kv : String × List (Int × String)) : List ℚ :=
  ((consecutiveDiffs ((kv.2.filter (fun tu => tu.2 == url)).map Prod.fst)).filter
    (fun d => 0 < d ∧ d < 3600)).map (fun d : Int => (d : ℚ))

/-- Reading-time contributions of one stored session: every engagement
entry whose ip equals the session key up to its first underscore (the
session dict is keyed by ip, so this is the session's ip). -/
def session_reads (kv : String × List (Int × String))
    (engagements : List (String × ℚ)) : List ℚ :=
  (engagements.filter
    (fun e2 => e2.1 == String.mk ((splitAll '_' kv.1.toList).headD []))).map
    (fun e2 => e2.2)

/-- The engagement_times accumulation of gunlog_content.py for one URL:
for every session that visited the URL, append the qualifying revisit
gaps and then the session's matching estimated reading times. -/
def engagement_times (url : String)
    (sessions : List (String × List (Int × String)))
    (engagements : List (String × ℚ)) : List ℚ :=
  sessions.foldl
    (fun acc kv =>
      let url_visits := kv.2.filter (fun tu => tu.2 == url)
      if url_visits.length > 0 then
        let gaps := if url_visits.length > 1 then session_gaps url kv else []
        acc ++ gaps ++ session_reads kv engagements
      else acc)
    []

/-- Per-URL view and bounce counters of the engagement loop: a session
counts as a view when it contains the URL, and additionally as a bounce
when it visited exactly one distinct URL overall. -/
def url_bounce_stats (url : String)
    (sessions : List (String × List (Int × String))) : Nat × Nat :=
  sessions.foldl
    (fun (acc : Nat × Nat) kv =>
      let urls_in_session := kv.2.map (fun tu => tu.2)
      if url ∈ urls_in_session then
        (acc.1 + 1,
          if urls_in_session.dedup.length = 1 then acc.2 + 1 else acc.2)
      else acc)
    (0, 0)

/-- engagement_rates entry computed by gunlog_content.py for one URL:
(avg_time_on_page, bounce_rate, engagement_score), produced only when
some engagement time was collected. -/
def engagement_rate (url : String)
    (sessions : List (String × List (Int × String)))
    (engagements : List (String × ℚ)) : Option (ℚ × ℚ × ℚ) :=
  let ts := engagement_times url sessions engagements
  if ts ≠ [] then
    let avg := ts.sum / (ts.length : ℚ)
    let stats := url_bounce_stats url sessions
    let bounce_rate : ℚ :=
      if stats.1 > 0 then ((stats.2 : ℚ) / (stats.1 : ℚ)) * 100 else 0
    some (avg, bounce_rate,
      if bounce_rate < 100 then avg * (1 - bounce_rate / 100) else 0)
  else none

/-- The claim's version of the revisit-gap window: interval (0, 3600],
closed at 3600 (the claim says the gaps are restricted to (0, 3600]
seconds).  Declared only to compare against the source behaviour. -/
def session_gaps_claimed (url : String)
    (kv : String × List (Int × String)) : List ℚ :=
  ((consecutiveDiffs ((kv.2.filter (fun tu => tu.2 == url)).map Prod.fst)).filter
    (fun d => 0 < d ∧ d ≤ 3600)).map (fun d : Int => (d : ℚ))

/-- engagement_times under the claim's closed-interval gap window. -/
def engagement_times_claimed (url : String)
    (sessions : List (String × List (Int × String)))
    (engagements : List (String × ℚ)) : List ℚ :=
  sessions.foldl
    (fun acc kv =>
      let url_visits := kv.2.filter (fun tu => tu.2 == url)
      if url_visits.length > 0 then
        let gaps := if url_visits.length > 1 then session_gaps_claimed url kv else []
        acc ++ gaps ++ session_reads kv engagements
      else acc)
    []

/-- Engagement score under the claim's closed-interval gap window. -/
def engagement_score_claimed (url : String)
    (sessions : List (String × List (Int × String)))
    (engagements : List (String × ℚ)) : Option ℚ :=
  let ts := engagement_times_claimed url sessions engagements
  if ts ≠ [] then
    let avg := ts.sum / (ts.length : ℚ)
    let stats := url_bounce_stats url sessions
    let bounce_rate : ℚ :=
      if stats.1 > 0 then ((stats.2 : ℚ) / (stats.1 : ℚ)) * 100 else 0
    some (if bounce_rate < 100 then avg * (1 - bounce_rate / 100) else 0)
  else none

/-- One record of the content analyzer as it leaves the line regex (the
fields the counting and session logic reads). -/
structure CRecord where
  ip : String
  time_str : String
  url : String
  status : Nat
  user_agent : String

/-- Count-bearing state of gunlog_content.py parse_access_log: total hit
count, the hour and weekday increment streams of the two time Counters,
the trending list, and the session dicts. -/
structure CState where
  total_hits : Nat
  hourly : List Nat
  daily : List Nat
  trending : List (String × Int)
  sessions : List (String × List (Int × String))
  ip_sessions : List (String × Int)

def initC : CState := ⟨0, [], [], [], [], []⟩

/-- Main-loop body of gunlog_content.py parse_access_log for one matched
record: skip bots, parse the timestamp (with the silent now fallback),
skip static and non-200 requests, then count, record trending when the
timestamp is within one day before the run instant, and track sessions.
The trending comparison timestamp > now - 1 day is the only place the
wall clock enters when every timestamp parses. -/
def contentStep (now : PyDateTime) (st : CState) (r : CRecord) : CState :=
  if is_bot r.user_agent then st
  else
    let pt := parse_time now r.time_str
    let timestamp := toSeconds pt.1
    let hour := pt.2.1
    let dow := pt.2.2
    if isStaticContent r.url || decide (r.status ≠ 200) then st
    else
      let st2 := { st with
        total_hits := st.total_hits + 1
        hourly := st.hourly ++ [hour]
        daily := st.daily ++ [dow]
        trending :=
          if timestamp > toSeconds now - 86400 then st.trending ++ [(r.url, timestamp)]
          else st.trending }
      let st3 :=
        match lookupA st2.ip_sessions r.ip with
        | some last_time =>
          if timestamp - last_time > 1800 then
            { st2 with sessions := insertA st2.sessions r.ip [(timestamp, r.url)] }
          else
            let cur := (lookupA st2.sessions r.ip).getD []
            { st2 with sessions := insertA st2.sessions r.ip (cur ++ [(timestamp, r.url)]) }
        | none =>
          { st2 with sessions := insertA st2.sessions r.ip [(timestamp, r.url)] }
      { st3 with ip_sessions := insertA st3.ip_sessions r.ip timestamp }

def runContent (now : PyDateTime) (records : List CRecord) : CState :=
  records.foldl (contentStep now) initC

/-- The content state without its trending list. -/
structure CCore where
  total_hits : Nat
  hourly : List Nat
  daily : List Nat
  sessions : List (String × List (Int × String))
  ip_sessions : List (String × Int)
deriving DecidableEq

/-- Projection of the content state onto everything except the trending
list (the only count the wall clock can influence once every timestamp
parses). -/
def noTrend (st : CState) : CCore :=
  ⟨st.total_hits, st.hourly, st.daily, st.sessions, st.ip_sessions⟩

/-- The loop body restricted to the non-trending components, taking the
parse_time result as an argument: chasing the definitions shows this is
exactly what contentStep does to those components. -/
def coreStep (pt : PyDateTime × Nat × Nat) (c : CCore) (r : CRecord) : CCore :=
  if is_bot r.user_agent then c
  else
    let timestamp := toSeconds pt.1
    let hour := pt.2.1
    let dow := pt.2.2
    if isStaticContent r.url || decide (r.status ≠ 200) then c
    else
      let c2 := { c with
        total_hits := c.total_hits + 1
        hourly := c.hourly ++ [hour]
        daily := c.daily ++ [dow] }
      let c3 :=
        match lookupA c2.ip_sessions r.ip with
        | some last_time =>
          if timestamp - last_time > 1800 then
            { c2 with sessions := insertA c2.sessions r.ip [(timestamp, r.url)] }
          else
            let cur := (lookupA c2.sessions r.ip).getD []
            { c2 with sessions := insertA c2.sessions r.ip (cur ++ [(timestamp, r.url)]) }
        | none =>
          { c2 with sessions := insertA c2.sessions r.ip [(timestamp, r.url)] }
      { c3 with ip_sessions := insertA c3.ip_sessions r.ip timestamp }

end Content

end Gunlog

namespace Gunlog

theorem lookupA_insertA_self {κ α : Type} [DecidableEq κ]
    (l : List (κ × α)) (k : κ) (v : α) :
    lookupA (insertA l k v) k = some v := by
  induction l with
  | nil => simp [insertA, lookupA, List.find?]
  | cons x xs ih =>
    by_cases hx : x.1 = k
    · simp [insertA, hx, lookupA, List.find?]
    · rw [show insertA (x :: xs) k v = x :: insertA xs k v from by simp [insertA, hx]]
      rw [lookupA, List.find?_cons_of_neg _ (by simp [hx])]
      exact ih

theorem lookupA_insertA_ne {κ α : Type} [DecidableEq κ]
    (l : List (κ × α)) {k k' : κ} (v : α) (h : k' ≠ k) :
    lookupA (insertA l k v) k' = lookupA l k' := by
  induction l with
  | nil => simp [insertA, lookupA, List.find?, Ne.symm h]
  | cons x xs ih =>
    by_cases hx : x.1 = k
    · have hx' : ¬ (x.1 = k') := fun e => h (e.symm.trans hx)
      rw [show insertA (x :: xs) k v = (k, v) :: xs from by simp [insertA, hx]]
      rw [lookupA, lookupA, List.find?_cons_of_neg _ (by simp [Ne.symm h]),
        List.find?_cons_of_neg _ (by simp [hx'])]
    · rw [show insertA (x :: xs) k v = x :: insertA xs k v from by simp [insertA, hx]]
      by_cases hxk : x.1 = k'
      · rw [lookupA, lookupA, List.find?_cons_of_pos _ (by simp [hxk]),
          List.find?_cons_of_pos _ (by simp [hxk])]
      · rw [lookupA, lookupA, List.find?_cons_of_neg _ (by simp [hxk]),
          List.find?_cons_of_neg _ (by simp [hxk])]
        exact ih

namespace Perf

theorem sortAsc_length (xs : List ℚ) : (sortAsc xs).length = xs.length :=
  (List.perm_insertionSort _ xs).length_eq

theorem percentileIndex_lt {n : Nat} (hn : 0 < n) {p : ℚ} (hp0 : 0 ≤ p)
    (hp1 : p < 1) : percentileIndex n p < n := by
  unfold percentileIndex
  rw [Nat.floor_lt (by positivity)]
  calc (n : ℚ) * p < (n : ℚ) * 1 := by
        exact mul_lt_mul_of_pos_left hp1 (by exact_mod_cast hn)
    _ = (n : ℚ) := by ring

end Perf

namespace Security

theorem detect_threats_eq_filter (request user_agent referrer : String) :
    detect_threats request user_agent referrer
      = (THREAT_PATTERNS.filter
          (fun tp => categoryHit tp request user_agent referrer)).map Prod.fst := by
  suffices h : ∀ (l : List (String × List (List Atom))) (acc : List String),
      l.foldl (fun detected tp =>
        if tp.2.any (fun pat =>
            (targets request user_agent referrer).any (fun t => re_search pat t))
        then detected ++ [tp.1]
        else detected) acc
        = acc ++ (l.filter
            (fun tp => categoryHit tp request user_agent referrer)).map Prod.fst by
    simpa [detect_threats] using h THREAT_PATTERNS []
  intro l
  induction l with
  | nil => intro acc; simp
  | cons tp rest ih =>
    intro acc
    by_cases hhit : categoryHit tp request user_agent referrer
    · simp only [List.foldl_cons, List.filter_cons, hhit, if_pos]
      rw [ih]
      simp [categoryHit] at hhit
      simp [hhit]
    · simp only [List.foldl_cons, List.filter_cons]
      have hf : (tp.2.any (fun pat =>
          (targets request user_agent referrer).any (fun t => re_search pat t))) = false := by
        simpa [categoryHit] using hhit
      rw [if_neg (by simp [hf]), ih]
      simp [hhit, hf]

end Security

namespace Traffic

theorem bounceCounts_eq
    (sessions : List (String × List (Int × String × SessionId))) :
    bounceCounts sessions = (sessions.countP isBounceB, sessions.length) := by
  suffices h : ∀ (l : List (String × List (Int × String × SessionId))) (a b : Nat),
      l.foldl (fun (acc : Nat × Nat) kv =>
        let uniq := ((kv.2.map (fun x => x.2.1)).filter
          (fun u => isStaticUrl u = false)).dedup
        ((if uniq.length = 1 then acc.1 + 1 else acc.1), acc.2 + 1)) (a, b)
        = (a + l.countP isBounceB, b + l.length) by
    simpa [bounceCounts] using h sessions 0 0
  intro l
  induction l with
  | nil => simp
  | cons kv rest ih =>
    intro a b
    simp only [List.foldl_cons, List.countP_cons, List.length_cons]
    rw [ih]
    have hcond : ((kv.2.map (fun x => x.2.1)).filter
        (fun u => isStaticUrl u = false)).dedup.length = 1 ↔ isBounceB kv = true := by
      simp [isBounceB]
    by_cases hb : isBounceB kv = true
    · rw [if_pos (hcond.mpr hb), if_pos hb]
      simp only [Prod.mk.injEq]
      exact ⟨by omega, by omega⟩
    · rw [if_neg (fun hc => hb (hcond.mp hc)), if_neg hb]
      simp only [Prod.mk.injEq]
      exact ⟨by omega, by omega⟩

theorem bump_ne (f : String → Nat) (k u : String) (h : u ≠ k) :
    bump f k u = f u := by
  simp [bump, h]

theorem trafficStep_entry_pages_static (st : TState) (e : TEvent) (u : String)
    (hu : isStaticUrl u = true) :
    (trafficStep st e).entry_pages u = st.entry_pages u := by
  have hne : isStaticUrl e.url = false → u ≠ e.url := by
    intro hf heq
    rw [← heq, hu] at hf
    exact Bool.noConfusion hf
  unfold trafficStep
  rcases hls : lookupA st.ip_sessions e.ip with _ | lt <;>
    simp only [hls] <;>
    split_ifs with h1 h2 h3 <;>
    first
      | rfl
      | exact bump_ne _ _ _ (hne h1.1)
      | exact bump_ne _ _ _ (hne h2.1)
      | exact bump_ne _ _ _ (hne h3.1)

theorem foldl_entry_pages_static (events : List TEvent) (st : TState)
    (u : String) (hu : isStaticUrl u = true) (h0 : st.entry_pages u = 0) :
    (events.foldl trafficStep st).entry_pages u = 0 := by
  induction events generalizing st with
  | nil => exact h0
  | cons e es ih =>
    exact ih _ (by rw [trafficStep_entry_pages_static st e u hu]; exact h0)

theorem trafficStep_updates_window (st : TState) (e : TEvent) :
    lookupA (trafficStep st e).ip_sessions e.ip = some e.t := by
  have hip : (trafficStep st e).ip_sessions = insertA st.ip_sessions e.ip e.t := by
    unfold trafficStep
    rcases hls : lookupA st.ip_sessions e.ip with _ | lt <;>
      simp only [hls] <;> split_ifs <;> rfl
  rw [hip, lookupA_insertA_self]

end Traffic

end Gunlog

/-- Claim C10: for a non-empty sample list of length N, the index
int(N * p) used by the p90, p95 and p99 lookups of
calculate_summary_metrics is strictly below N, so the sorted-list
indexing never goes out of range (the lookup always yields a value). -/
theorem C10_percentile_index_in_range :
    ∀ xs : List ℚ, xs ≠ [] →
      (Gunlog.Perf.percentileIndex xs.length (9/10) < xs.length
        ∧ (Gunlog.Perf.percentile xs (9/10)).isSome)
      ∧ (Gunlog.Perf.percentileIndex xs.length (19/20) < xs.length
        ∧ (Gunlog.Perf.percentile xs (19/20)).isSome)
      ∧ (Gunlog.Perf.percentileIndex xs.length (99/100) < xs.length
        ∧ (Gunlog.Perf.percentile xs (99/100)).isSome) := by
  intro xs hxs
  have hn : 0 < xs.length := List.length_pos.mpr hxs
  have key : ∀ p : ℚ, 0 ≤ p → p < 1 →
      Gunlog.Perf.percentileIndex xs.length p < xs.length
        ∧ (Gunlog.Perf.percentile xs p).isSome := by
    intro p hp0 hp1
    have hlt := Gunlog.Perf.percentileIndex_lt hn hp0 hp1
    refine ⟨hlt, ?_⟩
    have hlt2 : Gunlog.Perf.percentileIndex xs.length p
        < (Gunlog.Perf.sortAsc xs).length := by
      rw [Gunlog.Perf.sortAsc_length]; exact hlt
    unfold Gunlog.Perf.percentile
    rw [List.get?_eq_get hlt2]
    rfl
  exact ⟨key (9/10) (by norm_num) (by norm_num),
    key (19/20) (by norm_num) (by norm_num),
    key (99/100) (by norm_num) (by norm_num)⟩

/-- Witness for C10 at a concrete two-sample list. -/
theorem C10_percentile_index_in_range_witness :
    (Gunlog.Perf.percentileIndex (List.length [(5 : ℚ), 1]) (9/10)
        < List.length [(5 : ℚ), 1]
      ∧ (Gunlog.Perf.percentile [(5 : ℚ), 1] (9/10)).isSome)
    ∧ (Gunlog.Perf.percentileIndex (List.length [(5 : ℚ), 1]) (19/20)
        < List.length [(5 : ℚ), 1]
      ∧ (Gunlog.Perf.percentile [(5 : ℚ), 1] (19/20)).isSome)
    ∧ (Gunlog.Perf.percentileIndex (List.length [(5 : ℚ), 1]) (99/100)
        < List.length [(5 : ℚ), 1]
      ∧ (Gunlog.Perf.percentile [(5 : ℚ), 1] (99/100)).isSome) :=
  C10_percentile_index_in_range [(5 : ℚ), 1] (by simp)

/-- Claim C3: on a non-empty sample list and percentile fraction p below 1,
the computed percentile is exactly the element at 0-indexed position
floor(N * p) of the ascending-sorted samples (truncation, no rounding or
interpolation); and for the samples 0.1, 0.2, 0.5, 0.9, 1.2, 3.0 the p90
equals 3.0. -/
theorem C3_percentile_floor_indexing :
    (∀ (xs : List ℚ) (p : ℚ), xs ≠ [] → 0 ≤ p → p < 1 →
      ∃ h : Gunlog.Perf.percentileIndex xs.length p
          < (Gunlog.Perf.sortAsc xs).length,
        Gunlog.Perf.percentile xs p
            = some ((Gunlog.Perf.sortAsc xs).get
                ⟨Gunlog.Perf.percentileIndex xs.length p, h⟩)
          ∧ (Gunlog.Perf.sortAsc xs).Pairwise (fun a b => a ≤ b)
          ∧ (Gunlog.Perf.sortAsc xs).Perm xs)
    ∧ Gunlog.Perf.percentile [1/10, 2/10, 5/10, 9/10, 12/10, 3] (9/10)
        = some 3 := by
  constructor
  · intro xs p hxs hp0 hp1
    have hn : 0 < xs.length := List.length_pos.mpr hxs
    have hlt : Gunlog.Perf.percentileIndex xs.length p
        < (Gunlog.Perf.sortAsc xs).length := by
      rw [Gunlog.Perf.sortAsc_length]
      exact Gunlog.Perf.percentileIndex_lt hn hp0 hp1
    refine ⟨hlt, ?_, ?_, List.perm_insertionSort _ xs⟩
    · unfold Gunlog.Perf.percentile
      exact List.get?_eq_get hlt
    · exact List.sorted_insertionSort _ xs
  · have hidx : Gunlog.Perf.percentileIndex
        (List.length [(1 : ℚ)/10, 2/10, 5/10, 9/10, 12/10, 3]) (9/10) = 5 := by
      norm_num [Gunlog.Perf.percentileIndex, Nat.floor_eq_iff]
    unfold Gunlog.Perf.percentile
    rw [hidx]
    norm_num [Gunlog.Perf.sortAsc, List.insertionSort, List.orderedInsert,
      List.get?]

/-- Witness for C3 at a concrete two-sample list and p = 1/2. -/
theorem C3_percentile_floor_indexing_witness :
    ∃ h : Gunlog.Perf.percentileIndex (List.length [(5 : ℚ), 1]) (1/2)
        < (Gunlog.Perf.sortAsc [(5 : ℚ), 1]).length,
      Gunlog.Perf.percentile [(5 : ℚ), 1] (1/2)
          = some ((Gunlog.Perf.sortAsc [(5 : ℚ), 1]).get
              ⟨Gunlog.Perf.percentileIndex (List.length [(5 : ℚ), 1]) (1/2), h⟩)
        ∧ (Gunlog.Perf.sortAsc [(5 : ℚ), 1]).Pairwise (fun a b => a ≤ b)
        ∧ (Gunlog.Perf.sortAsc [(5 : ℚ), 1]).Perm [(5 : ℚ), 1] :=
  C3_percentile_floor_indexing.1 [(5 : ℚ), 1] (1/2)
    (by simp) (by norm_num) (by norm_num)

/-- Claim C5: the security score of gunlog_security.py equals 100 minus a
penalty for attacks capped at 50, minus a penalty for authentication
failures capped at 20, minus a penalty for sensitive-resource accesses
capped at 20, and always lies between 0 and 100. -/
theorem C5_security_score_caps_and_range :
    ∀ a f s : Nat,
      Gunlog.Security.security_score a f s
          = max 0 (100 - min 50 (a : Int) - min 20 ((f : Int) * 5)
              - min 20 ((s : Int) * 2))
      ∧ Gunlog.Security.security_score a f s
          = 100 - min 50 (a : Int) - min 20 ((f : Int) * 5)
              - min 20 ((s : Int) * 2)
      ∧ 0 ≤ Gunlog.Security.security_score a f s
      ∧ Gunlog.Security.security_score a f s ≤ 100 := by
  intro a f s
  simp only [Gunlog.Security.security_score]
  split_ifs <;> (refine ⟨?_, ?_, ?_, ?_⟩ <;> omega)

/-- Claim C1: the spec demands that a timestamp-parse failure be reported
explicitly and that the current wall-clock time never be substituted for
the record's timestamp.  The code does the opposite: whenever the parse
fails, parse_time silently returns the wall-clock instant `now` passed to
it (with hour 0, weekday 0), so the result depends on when the program is
run and carries no caller-visible failure signal. -/
theorem C1_parse_time_substitutes_wall_clock :
    ∀ (now : Gunlog.PyDateTime) (s : String),
      Gunlog.parse_time_core s = none →
      Gunlog.parse_time now s = (now, 0, 0) := by
  intro now s h
  simp [Gunlog.parse_time, h]

/-- Witness for C1 at a concrete unparseable timestamp string: two runs at
different wall-clock instants return those two different instants. -/
theorem C1_parse_time_substitutes_wall_clock_witness :
    Gunlog.parse_time_core "bad-timestamp" = none
    ∧ Gunlog.parse_time ⟨2024, 1, 1, 0, 0, 0⟩ "bad-timestamp"
        = (⟨2024, 1, 1, 0, 0, 0⟩, 0, 0)
    ∧ Gunlog.parse_time ⟨2024, 5, 7, 12, 30, 9⟩ "bad-timestamp"
        = (⟨2024, 5, 7, 12, 30, 9⟩, 0, 0)
    ∧ (⟨2024, 1, 1, 0, 0, 0⟩ : Gunlog.PyDateTime) ≠ ⟨2024, 5, 7, 12, 30, 9⟩ := by
  refine ⟨by decide, ?_, ?_, by decide⟩
  · exact C1_parse_time_substitutes_wall_clock ⟨2024, 1, 1, 0, 0, 0⟩ _ (by decide)
  · exact C1_parse_time_substitutes_wall_clock ⟨2024, 5, 7, 12, 30, 9⟩ _ (by decide)

/-- Claim C4: calculate_bounce_rate counts a stored session as a bounce
exactly when the number of distinct non-static URLs it visited equals 1,
and returns bounces divided by total sessions times 100. -/
theorem C4_bounce_rate :
    ∀ sessions : List (String × List (Int × String × Gunlog.Traffic.SessionId)),
      sessions ≠ [] →
      Gunlog.Traffic.calculate_bounce_rate sessions
          = ((sessions.countP Gunlog.Traffic.isBounceB : ℚ)
              / (sessions.length : ℚ)) * 100
        ∧ ∀ kv ∈ sessions,
            (Gunlog.Traffic.isBounceB kv = true
              ↔ Gunlog.Traffic.distinctNonStatic kv.2 = 1) := by
  intro sessions hne
  constructor
  · unfold Gunlog.Traffic.calculate_bounce_rate
    rw [Gunlog.Traffic.bounceCounts_eq]
    have hpos : 0 < sessions.length := List.length_pos.mpr hne
    simp only [gt_iff_lt, hpos, if_pos]
  · intro kv _
    unfold Gunlog.Traffic.isBounceB Gunlog.Traffic.distinctNonStatic
    rw [List.card_toFinset]
    have hfil : (kv.2.map (fun x => x.2.1)).filter
          (fun u => Gunlog.Traffic.isStaticUrl u = false)
        = (kv.2.map (fun x => x.2.1)).filter
          (fun u => ¬ Gunlog.Traffic.isStaticUrl u) := by
      apply List.filter_congr
      intro u _
      cases h : Gunlog.Traffic.isStaticUrl u <;> simp [h]
    rw [hfil]
    simp

/-- Witness for C4: a run with one session seeing only /a (twice, a
bounce) and one session seeing /a then /b (not a bounce). -/
theorem C4_bounce_rate_witness :
    Gunlog.Traffic.calculate_bounce_rate
        [("1.1.1.1", [(0, "/a", ("1.1.1.1", 0)), (10, "/a", ("1.1.1.1", 0))]),
         ("2.2.2.2", [(0, "/a", ("2.2.2.2", 0)), (5, "/b", ("2.2.2.2", 0))])]
        = ((List.countP Gunlog.Traffic.isBounceB
            [("1.1.1.1", [(0, "/a", ("1.1.1.1", 0)), (10, "/a", ("1.1.1.1", 0))]),
             ("2.2.2.2", [(0, "/a", ("2.2.2.2", 0)), (5, "/b", ("2.2.2.2", 0))])] : ℚ)
            / (List.length
            [("1.1.1.1", [((0 : Int), "/a", ("1.1.1.1", (0 : Int))), (10, "/a", ("1.1.1.1", 0))]),
             ("2.2.2.2", [(0, "/a", ("2.2.2.2", 0)), (5, "/b", ("2.2.2.2", 0))])] : ℚ)) * 100
      ∧ ∀ kv ∈ [("1.1.1.1", [((0 : Int), "/a", ("1.1.1.1", (0 : Int))), (10, "/a", ("1.1.1.1", 0))]),
             ("2.2.2.2", [(0, "/a", ("2.2.2.2", 0)), (5, "/b", ("2.2.2.2", 0))])],
            (Gunlog.Traffic.isBounceB kv = true
              ↔ Gunlog.Traffic.distinctNonStatic kv.2 = 1) :=
  C4_bounce_rate _ (by simp)

/-- Claim C7 counterexample: static-asset URLs are not excluded from
exit-page computation.  In the run below /style.css is static, yet the
end-of-scan flush records it as an exit page; moreover a static event
refreshes the inactivity window, so a following request 1900 seconds
after the last non-static page (more than the 1800-second timeout) still
extends the same session instead of starting a new one. -/
theorem C7_counterexample_static_not_excluded :
    Gunlog.Traffic.isStaticUrl "/style.css" = true
    ∧ (Gunlog.Traffic.runTraffic
        [⟨"1.1.1.1", 0, "/a", 200⟩, ⟨"1.1.1.1", 100, "/style.css", 200⟩]).exit_pages
        "/style.css" = 1
    ∧ (Gunlog.Traffic.sessionsAll (Gunlog.Traffic.runTraffic
        [⟨"4.4.4.4", 0, "/a", 200⟩, ⟨"4.4.4.4", 100, "/style.css", 200⟩,
         ⟨"4.4.4.4", 1900, "/b", 200⟩])).length = 1 := by
  refine ⟨by decide, by decide, by decide⟩

/-- Claim C7 amended: static-asset URLs are excluded from entry-page and
bounce computation, but they are appended to sessions like any other
event: a static event refreshes the session's inactivity window (and a
session can therefore be closed or kept open based on a static event's
timestamp), and a static URL can be recorded as an exit page. -/
theorem C7_amended_static_handling :
    (∀ (events : List Gunlog.Traffic.TEvent) (u : String),
      Gunlog.Traffic.isStaticUrl u = true →
      (Gunlog.Traffic.runTraffic events).entry_pages u = 0)
    ∧ (∀ (sess : List (Int × String × Gunlog.Traffic.SessionId)) (t : Int)
        (u : String) (sid : Gunlog.Traffic.SessionId),
        Gunlog.Traffic.isStaticUrl u = true →
        Gunlog.Traffic.distinctNonStatic (sess ++ [(t, u, sid)])
          = Gunlog.Traffic.distinctNonStatic sess)
    ∧ (∀ (st : Gunlog.Traffic.TState) (e : Gunlog.Traffic.TEvent),
        Gunlog.Traffic.isStaticUrl e.url = true →
        Gunlog.lookupA (Gunlog.Traffic.trafficStep st e).ip_sessions e.ip
          = some e.t)
    ∧ (Gunlog.Traffic.runTraffic [⟨"2.2.2.2", 0, "/img.png", 200⟩]).exit_pages
        "/img.png" = 1 := by
  refine ⟨?_, ?_, ?_, by decide⟩
  · intro events u hu
    have hfin : (Gunlog.Traffic.runTraffic events).entry_pages
        = (events.foldl Gunlog.Traffic.trafficStep Gunlog.Traffic.initT).entry_pages := by
      simp [Gunlog.Traffic.runTraffic, Gunlog.Traffic.trafficFinalize]
    rw [hfin]
    exact Gunlog.Traffic.foldl_entry_pages_static events Gunlog.Traffic.initT u hu rfl
  · intro sess t u sid hu
    unfold Gunlog.Traffic.distinctNonStatic
    simp [List.filter_append, hu]
  · intro st e _
    exact Gunlog.Traffic.trafficStep_updates_window st e

/-- Witness for C7 amended at concrete static inputs. -/
theorem C7_amended_static_handling_witness :
    (Gunlog.Traffic.runTraffic
        [⟨"1.1.1.1", 0, "/x.css", 200⟩, ⟨"1.1.1.1", 5, "/a", 200⟩]).entry_pages
        "/x.css" = 0
    ∧ Gunlog.Traffic.distinctNonStatic
        [((0 : Int), "/a", ("1.1.1.1", (0 : Int))), (7, "/pix.gif", ("1.1.1.1", 0))]
        = Gunlog.Traffic.distinctNonStatic [((0 : Int), "/a", ("1.1.1.1", (0 : Int)))]
    ∧ Gunlog.lookupA
        (Gunlog.Traffic.trafficStep
          ⟨[("1.1.1.1", 0)], [("1.1.1.1", [(0, "/a", ("1.1.1.1", 0))])],
            fun _ => 0, fun _ => 0, []⟩
          ⟨"1.1.1.1", 60, "/pix.gif", 200⟩).ip_sessions "1.1.1.1" = some 60 := by
  refine ⟨C7_amended_static_handling.1 _ "/x.css" (by decide), ?_, ?_⟩
  · exact C7_amended_static_handling.2.1 [((0 : Int), "/a", ("1.1.1.1", (0 : Int)))]
      7 "/pix.gif" ("1.1.1.1", 0) (by decide)
  · exact C7_amended_static_handling.2.2.1 _ ⟨"1.1.1.1", 60, "/pix.gif", 200⟩ (by decide)

/-- Claim C2 counterexample: the claim asserts (citing both
gunlog_traffic.py and gunlog_seo.py) that an event extends the current
session exactly when the gap is at most 30 minutes.  gunlog_seo.py uses a
strict less-than continuation test, so at a gap of exactly 1800 seconds
(30 minutes, which the claim says must extend the session) it starts a
new session: two non-bot GET events 1800 seconds apart produce two
sessions. -/
theorem C2_counterexample_seo_30min_gap :
    Gunlog.Seo.seoSessionsAll (Gunlog.Seo.runSeo
        [⟨"3.3.3.3", 0, "/p", 200, "GET", false⟩,
         ⟨"3.3.3.3", 1800, "/p", 200, "GET", false⟩])
      = [("3.3.3.3", [(0, "/p")]), ("3.3.3.3", [(1800, "/p")])]
    ∧ ((1800 : Int) - 0 ≤ 1800) := by
  refine ⟨by decide, by decide⟩

/-- Claim C2 amended: in gunlog_traffic.py an event from a tracked client
extends the current session exactly when the gap is at most 1800 seconds
(split strictly on greater), while in gunlog_seo.py it extends exactly
when the gap is strictly below 1800 seconds (split on greater or equal).
For the spec example, events at 0, 5, 40 and 50 minutes from one client,
both trackers produce exactly two sessions, 0 and 5 minutes, then 40 and
50 minutes, because the only split gap, 35 minutes, is over the timeout
under either comparison. -/
theorem C2_amended_session_boundary :
    (∀ (st : Gunlog.Traffic.TState) (ip : String) (t : Int) (url : String)
      (status : Nat) (lt : Int) (c0 : Int × String × Gunlog.Traffic.SessionId)
      (rest : List (Int × String × Gunlog.Traffic.SessionId)),
      Gunlog.lookupA st.ip_sessions ip = some lt →
      Gunlog.lookupA st.sessions ip = some (c0 :: rest) →
      (Gunlog.lookupA (Gunlog.Traffic.trafficStep st ⟨ip, t, url, status⟩).sessions ip
          = some ((c0 :: rest) ++ [(t, url, c0.2.2)])
        ↔ t - lt ≤ 1800))
    ∧ (∀ (st : Gunlog.Seo.SState) (ip : String) (t : Int) (url : String)
      (status : Nat) (method : String) (lt : Int) (c0 : Int × String)
      (rest : List (Int × String)),
      Gunlog.lookupA st.ip_last_seen ip = some lt →
      Gunlog.lookupA st.sessions ip = some (c0 :: rest) →
      (Gunlog.lookupA (Gunlog.Seo.seoStep st ⟨ip, t, url, status, method, false⟩).sessions ip
          = some ((c0 :: rest) ++ [(t, url)])
        ↔ t - lt < 1800))
    ∧ Gunlog.Traffic.sessionsAll (Gunlog.Traffic.runTraffic
        [⟨"9.9.9.9", 0, "/p", 200⟩, ⟨"9.9.9.9", 300, "/p", 200⟩,
         ⟨"9.9.9.9", 2400, "/p", 200⟩, ⟨"9.9.9.9", 3000, "/p", 200⟩])
      = [("9.9.9.9", [(0, "/p", ("9.9.9.9", 0)), (300, "/p", ("9.9.9.9", 0))]),
         ("9.9.9.9", [(2400, "/p", ("9.9.9.9", 2400)), (3000, "/p", ("9.9.9.9", 2400))])]
    ∧ Gunlog.Seo.seoSessionsAll (Gunlog.Seo.runSeo
        [⟨"9.9.9.9", 0, "/p", 200, "GET", false⟩,
         ⟨"9.9.9.9", 300, "/p", 200, "GET", false⟩,
         ⟨"9.9.9.9", 2400, "/p", 200, "GET", false⟩,
         ⟨"9.9.9.9", 3000, "/p", 200, "GET", false⟩])
      = [("9.9.9.9", [(0, "/p"), (300, "/p")]),
         ("9.9.9.9", [(2400, "/p"), (3000, "/p")])] := by
  refine ⟨?_, ?_, by decide, by decide⟩
  · intro st ip t url status lt c0 rest hls hsess
    by_cases hgap : t - lt > 1800
    · simp only [Gunlog.Traffic.trafficStep, hls, if_pos hgap]
      rw [Gunlog.lookupA_insertA_self]
      constructor
      · intro h
        injection h with h2
        have := congrArg List.length h2
        simp at this
      · intro h
        exact absurd h (by omega)
    · simp only [Gunlog.Traffic.trafficStep, hls, if_neg hgap]
      rw [hsess]
      simp only [Option.getD_some, List.head?_cons, Option.map_some, Option.getD_some]
      rw [Gunlog.lookupA_insertA_self]
      constructor
      · intro _
        omega
      · intro _
        rfl
  · intro st ip t url status method lt c0 rest hls hsess
    by_cases hgap : t - lt < 1800
    · simp only [Gunlog.Seo.seoStep, hls, Bool.false_eq_true, if_false,
        decide_eq_true_eq]
      rw [if_pos hgap, hsess]
      dsimp only
      simp only [Option.getD_some]
      rw [Gunlog.lookupA_insertA_self]
      simp [hgap]
    · simp only [Gunlog.Seo.seoStep, hls, Bool.false_eq_true, if_false,
        decide_eq_true_eq]
      rw [if_neg hgap]
      dsimp only
      rw [Gunlog.lookupA_insertA_self]
      constructor
      · intro h
        injection h with h2
        have := congrArg List.length h2
        simp at this
      · intro h
        exact absurd h hgap

/-- Witness for C2 amended: both boundary equivalences instantiated at a
concrete tracked client with a 300-second gap. -/
theorem C2_amended_session_boundary_witness :
    (Gunlog.lookupA
        (Gunlog.Traffic.trafficStep
          ⟨[("1.1.1.1", 0)], [("1.1.1.1", [(0, "/a", ("1.1.1.1", 0))])],
            fun _ => 0, fun _ => 0, []⟩
          ⟨"1.1.1.1", 300, "/b", 200⟩).sessions "1.1.1.1"
        = some (((0, "/a", ("1.1.1.1", 0)) :: []) ++ [(300, "/b", ("1.1.1.1", 0))])
      ↔ (300 : Int) - 0 ≤ 1800)
    ∧ (Gunlog.lookupA
        (Gunlog.Seo.seoStep
          ⟨[("1.1.1.1", 0)], [("1.1.1.1", [(0, "/a")])],
            fun _ => 0, fun _ => 0, []⟩
          ⟨"1.1.1.1", 300, "/b", 200, "GET", false⟩).sessions "1.1.1.1"
        = some (((0, "/a") :: []) ++ [(300, "/b")])
      ↔ (300 : Int) - 0 < 1800) :=
  ⟨C2_amended_session_boundary.1 _ "1.1.1.1" 300 "/b" 200 0
      (0, "/a", ("1.1.1.1", 0)) [] (by decide) (by decide),
    C2_amended_session_boundary.2.1 _ "1.1.1.1" 300 "/b" 200 "GET" 0
      (0, "/a") [] (by decide) (by decide)⟩

/-- Claim C8: detect_threats returns each category name at most once, a
category is present exactly when one of its patterns matches one of the
three targets (request, user agent, blanked referrer), the UNION SELECT
request flags SQL Injection and nothing else, and the plain /about
request flags nothing.  The final two conjuncts exercise the unescaped
wildcard dots of the /.git and /.env source patterns: /agit and /xenv
are flagged as Server Scan, exactly as the program flags them. -/
theorem C8_threat_matcher :
    (∀ request user_agent referrer : String,
      (Gunlog.Security.detect_threats request user_agent referrer).Nodup)
    ∧ (∀ request user_agent referrer cat : String,
      cat ∈ Gunlog.Security.detect_threats request user_agent referrer
        ↔ ∃ tp ∈ Gunlog.Security.THREAT_PATTERNS, tp.1 = cat ∧
            ∃ pat ∈ tp.2,
              ∃ t ∈ Gunlog.Security.targets request user_agent referrer,
                Gunlog.Security.re_search pat t = true)
    ∧ Gunlog.Security.detect_threats "GET /x?id=1 UNION SELECT * FROM users"
        "Mozilla/5.0" "-" = ["SQL Injection"]
    ∧ Gunlog.Security.detect_threats "GET /about" "Mozilla/5.0" "-" = []
    ∧ Gunlog.Security.detect_threats "GET /agit" "Mozilla/5.0" "-"
        = ["Server Scan"]
    ∧ Gunlog.Security.detect_threats "GET /xenv" "Mozilla/5.0" "-"
        = ["Server Scan"] := by
  refine ⟨?_, ?_, by decide, by decide, by decide, by decide⟩
  · intro r u f
    rw [Gunlog.Security.detect_threats_eq_filter]
    have hkeys : (Gunlog.Security.THREAT_PATTERNS.map Prod.fst).Nodup := by decide
    exact List.Nodup.sublist ((List.filter_sublist _).map Prod.fst) hkeys
  · intro r u f cat
    rw [Gunlog.Security.detect_threats_eq_filter]
    simp only [List.mem_map, List.mem_filter, Gunlog.Security.categoryHit,
      List.any_eq_true]
    constructor
    · rintro ⟨tp, ⟨htp, hhit⟩, heq⟩
      exact ⟨tp, htp, heq, hhit⟩
    · rintro ⟨tp, htp, heq, hhit⟩
      exact ⟨tp, ⟨htp, hhit⟩, heq⟩

/-- Claim C6 counterexample: the claim restricts revisit gaps to the
closed-right interval (0, 3600], but the source keeps a gap only when it
is strictly below 3600 seconds.  For a session revisiting /a after
exactly 3600 seconds (with one matching reading time of 60 seconds and a
second distinct URL so the bounce rate is 0), the code computes an
engagement score of 60, while the claimed formula averages in the
3600-second gap and yields 1830. -/
theorem C6_counterexample_closed_interval :
    Gunlog.Content.engagement_rate "/a"
        [("1.1.1.1", [(0, "/a"), (3600, "/a"), (3700, "/b")])]
        [("1.1.1.1", (60 : ℚ))] = some (60, 0, 60)
    ∧ Gunlog.Content.engagement_score_claimed "/a"
        [("1.1.1.1", [(0, "/a"), (3600, "/a"), (3700, "/b")])]
        [("1.1.1.1", (60 : ℚ))] = some 1830
    ∧ (60 : ℚ) ≠ 1830 := by
  have hkey : ({ data := (Gunlog.splitAll '_'
        ['1', '.', '1', '.', '1', '.', '1']).head?.getD [] } : String)
      = "1.1.1.1" := by decide
  have hd : (["/a", "/b"] : List String).dedup.length = 2 := by decide
  refine ⟨?_, ?_, by norm_num⟩
  · norm_num [Gunlog.Content.engagement_rate, Gunlog.Content.engagement_times,
      Gunlog.Content.session_gaps, Gunlog.Content.session_reads,
      Gunlog.Content.consecutiveDiffs, hkey, Gunlog.Content.url_bounce_stats, hd]
  · norm_num [Gunlog.Content.engagement_score_claimed,
      Gunlog.Content.engagement_times_claimed, Gunlog.Content.session_gaps_claimed,
      Gunlog.Content.session_reads, Gunlog.Content.consecutiveDiffs, hkey,
      Gunlog.Content.url_bounce_stats, hd]
    simp

/-- Claim C6 amended: the engagement score is
avg_time_on_page * (1 - bounce_rate/100) when bounce_rate < 100 and 0
otherwise, where avg_time_on_page is the mean of the collected
engagement times; those times are, per session that visited the URL, the
consecutive same-URL revisit gaps restricted to the OPEN interval
(0, 3600) - a gap of exactly 3600 seconds is dropped - followed by the
session's matching content-size-derived reading times; the reading time
of a positive size is size/6/200*60 seconds; and the bounce rate is
bouncing-sessions / sessions-containing-the-URL * 100. -/
theorem C6_amended_engagement_score :
    (∀ (url : String) (sessions : List (String × List (Int × String)))
      (engagements : List (String × ℚ)),
      Gunlog.Content.engagement_times url sessions engagements
        = sessions.bind (fun kv =>
            if (kv.2.filter (fun tu => tu.2 == url)).length > 0 then
              (if (kv.2.filter (fun tu => tu.2 == url)).length > 1 then
                Gunlog.Content.session_gaps url kv else [])
                ++ Gunlog.Content.session_reads kv engagements
            else []))
    ∧ (∀ (url : String) (kv : String × List (Int × String)),
        ∀ q ∈ Gunlog.Content.session_gaps url kv, 0 < q ∧ q < 3600)
    ∧ (∀ size : Int, 0 < size →
        Gunlog.Content.calculate_reading_time size = ((size : ℚ) / 6) / 200 * 60)
    ∧ (∀ (url : String) (sessions : List (String × List (Int × String)))
      (engagements : List (String × ℚ)) (avg rate score : ℚ),
      Gunlog.Content.engagement_rate url sessions engagements
          = some (avg, rate, score) →
        Gunlog.Content.engagement_times url sessions engagements ≠ []
        ∧ avg = (Gunlog.Content.engagement_times url sessions engagements).sum
            / ((Gunlog.Content.engagement_times url sessions engagements).length : ℚ)
        ∧ rate = (if (Gunlog.Content.url_bounce_stats url sessions).1 > 0 then
            (((Gunlog.Content.url_bounce_stats url sessions).2 : ℚ)
              / ((Gunlog.Content.url_bounce_stats url sessions).1 : ℚ)) * 100 else 0)
        ∧ score = (if rate < 100 then avg * (1 - rate / 100) else 0)) := by
  refine ⟨?_, ?_, ?_, ?_⟩
  · intro url sessions engagements
    suffices h : ∀ (l : List (String × List (Int × String))) (acc : List ℚ),
        l.foldl (fun acc kv =>
          let url_visits := kv.2.filter (fun tu => tu.2 == url)
          if url_visits.length > 0 then
            let gaps := if url_visits.length > 1 then
              Gunlog.Content.session_gaps url kv else []
            acc ++ gaps ++ Gunlog.Content.session_reads kv engagements
          else acc) acc
          = acc ++ l.bind (fun kv =>
              if (kv.2.filter (fun tu => tu.2 == url)).length > 0 then
                (if (kv.2.filter (fun tu => tu.2 == url)).length > 1 then
                  Gunlog.Content.session_gaps url kv else [])
                  ++ Gunlog.Content.session_reads kv engagements
              else []) by
      simpa [Gunlog.Content.engagement_times] using h sessions []
    intro l
    induction l with
    | nil => intro acc; simp
    | cons kv rest ih =>
      intro acc
      by_cases hv : (kv.2.filter (fun tu => tu.2 == url)).length > 0
      · simp only [List.foldl_cons, List.cons_bind]
        rw [ih]
        simp [hv, List.append_assoc]
      · simp only [List.foldl_cons, List.cons_bind]
        rw [ih]
        simp [hv]
  · intro url kv q hq
    simp only [Gunlog.Content.session_gaps, List.mem_map] at hq
    obtain ⟨d, hd, rfl⟩ := hq
    have hb := List.of_mem_filter hd
    simp only [decide_eq_true_eq] at hb
    constructor
    · exact_mod_cast hb.1
    · exact_mod_cast hb.2
  · intro size hpos
    unfold Gunlog.Content.calculate_reading_time
    rw [if_neg (by omega)]
  · intro url sessions engagements avg rate score h
    unfold Gunlog.Content.engagement_rate at h
    by_cases hts : Gunlog.Content.engagement_times url sessions engagements = []
    · rw [if_neg (by simp [hts])] at h
      exact absurd h (by simp)
    · rw [if_pos (by simpa using hts)] at h
      simp only [Option.some.injEq, Prod.mk.injEq] at h
      obtain ⟨ha, hr, hs⟩ := h
      exact ⟨hts, ha.symm, hr.symm, by rw [← hr, ← ha, ← hs]⟩

/-- Witness for C6 amended at concrete inputs: the loop-to-comprehension
equality at the counterexample state, a collected gap obeying the open
bounds, the reading time of a 1200-byte page, and the unpacked
engagement entry of the counterexample state. -/
theorem C6_amended_engagement_score_witness :
    Gunlog.Content.engagement_times "/a"
        [("1.1.1.1", [(0, "/a"), (3600, "/a"), (3700, "/b")])]
        [("1.1.1.1", (60 : ℚ))]
      = List.bind [("1.1.1.1", [((0 : Int), "/a"), (3600, "/a"), (3700, "/b")])]
          (fun kv =>
            if (kv.2.filter (fun tu => tu.2 == "/a")).length > 0 then
              (if (kv.2.filter (fun tu => tu.2 == "/a")).length > 1 then
                Gunlog.Content.session_gaps "/a" kv else [])
                ++ Gunlog.Content.session_reads kv [("1.1.1.1", (60 : ℚ))]
            else [])
    ∧ (0 < (10 : ℚ) ∧ (10 : ℚ) < 3600)
    ∧ Gunlog.Content.calculate_reading_time 1200 = ((1200 : ℚ) / 6) / 200 * 60
    ∧ (Gunlog.Content.engagement_times "/a"
          [("1.1.1.1", [(0, "/a"), (3600, "/a"), (3700, "/b")])]
          [("1.1.1.1", (60 : ℚ))] ≠ []
        ∧ (60 : ℚ) = (Gunlog.Content.engagement_times "/a"
            [("1.1.1.1", [(0, "/a"), (3600, "/a"), (3700, "/b")])]
            [("1.1.1.1", (60 : ℚ))]).sum
            / ((Gunlog.Content.engagement_times "/a"
            [("1.1.1.1", [(0, "/a"), (3600, "/a"), (3700, "/b")])]
            [("1.1.1.1", (60 : ℚ))]).length : ℚ)
        ∧ (0 : ℚ) = (if (Gunlog.Content.url_bounce_stats "/a"
              [("1.1.1.1", [(0, "/a"), (3600, "/a"), (3700, "/b")])]).1 > 0 then
            (((Gunlog.Content.url_bounce_stats "/a"
              [("1.1.1.1", [(0, "/a"), (3600, "/a"), (3700, "/b")])]).2 : ℚ)
              / ((Gunlog.Content.url_bounce_stats "/a"
              [("1.1.1.1", [(0, "/a"), (3600, "/a"), (3700, "/b")])]).1 : ℚ)) * 100
            else 0)
        ∧ (60 : ℚ) = (if (0 : ℚ) < 100 then 60 * (1 - (0 : ℚ) / 100) else 0)) := by
  refine ⟨C6_amended_engagement_score.1 "/a" _ _, ?_, ?_, ?_⟩
  · refine C6_amended_engagement_score.2.1 "/a"
      ("1.1.1.1", [((0 : Int), "/a"), (10, "/a")]) 10 ?_
    have hdif : Gunlog.Content.consecutiveDiffs [(0 : Int), 10] = [10] := by decide
    norm_num [Gunlog.Content.session_gaps, hdif]
  · exact C6_amended_engagement_score.2.2.1 1200 (by norm_num)
  · refine C6_amended_engagement_score.2.2.2 "/a" _ _ 60 0 60 ?_
    have hkey : ({ data := (Gunlog.splitAll '_'
          ['1', '.', '1', '.', '1', '.', '1']).head?.getD [] } : String)
        = "1.1.1.1" := by decide
    have hd : (["/a", "/b"] : List String).dedup.length = 2 := by decide
    norm_num [Gunlog.Content.engagement_rate, Gunlog.Content.engagement_times,
      Gunlog.Content.session_gaps, Gunlog.Content.session_reads,
      Gunlog.Content.consecutiveDiffs, hkey, Gunlog.Content.url_bounce_stats, hd]

namespace Gunlog

namespace Content

theorem noTrend_contentStep (now : PyDateTime) (st : CState) (r : CRecord) :
    noTrend (contentStep now st r)
      = coreStep (parse_time now r.time_str) (noTrend st) r := by
  unfold contentStep coreStep
  cases hbot : is_bot r.user_agent with
  | true => simp [hbot]
  | false =>
    simp only [hbot, Bool.false_eq_true, if_false]
    cases hskip : (isStaticContent r.url || decide (r.status ≠ 200)) with
    | true => simp only [hskip, if_true]
    | false =>
      simp only [hskip, Bool.false_eq_true, if_false]
      dsimp only [noTrend]
      rcases hls : lookupA st.ip_sessions r.ip with _ | last
      · simp only [hls]
      · simp only [hls]
        by_cases hgap : toSeconds (parse_time now r.time_str).1 - last > 1800
        · simp only [hgap, if_true]
        · simp only [hgap, if_false]

theorem foldl_noTrend (records : List CRecord) (now1 now2 : PyDateTime)
    (st1 st2 : CState)
    (hp : ∀ r ∈ records, (parse_time_core r.time_str).isSome)
    (h : noTrend st1 = noTrend st2) :
    noTrend (records.foldl (contentStep now1) st1)
      = noTrend (records.foldl (contentStep now2) st2) := by
  induction records generalizing st1 st2 with
  | nil => exact h
  | cons r rs ih =>
    have hr := hp r (by simp)
    obtain ⟨v, hv⟩ := Option.isSome_iff_exists.mp hr
    have e1 : parse_time now1 r.time_str = v := by simp [parse_time, hv]
    have e2 : parse_time now2 r.time_str = v := by simp [parse_time, hv]
    refine ih (contentStep now1 st1 r) (contentStep now2 st2 r)
      (fun q hq => hp q (by simp [hq])) ?_
    rw [noTrend_contentStep, noTrend_contentStep, e1, e2, h]

end Content

end Gunlog

/-- Claim C9 counterexample: the content aggregation is not a function of
the log contents alone.  The same single-record log, aggregated at two
different wall-clock instants, produces different trending-content
counts: run within a day of the record's timestamp it is trending, run
months later it is not. -/
theorem C9_counterexample_wall_clock :
    (Gunlog.Content.runContent ⟨2023, 10, 10, 14, 0, 0⟩
        [⟨"1.1.1.1", "10/Oct/2023:13:55:36 +0200", "/a", 200, "test-agent"⟩]).trending.length
      = 1
    ∧ (Gunlog.Content.runContent ⟨2024, 1, 1, 0, 0, 0⟩
        [⟨"1.1.1.1", "10/Oct/2023:13:55:36 +0200", "/a", 200, "test-agent"⟩]).trending.length
      = 0 := by
  refine ⟨by decide, by decide⟩

/-- Claim C9 amended: provided every record timestamp parses, two runs of
the content aggregator over the same records at different wall-clock
instants agree bit for bit on every count except the trending-content
list: total hits, the hourly and weekday histogram streams, the sessions
and the last-seen map.  The trending classification compares record
timestamps against the run instant minus one day and thus legitimately
depends on when the run happens (and a failed timestamp parse would stamp
the record with the run instant, claim C1). -/
theorem C9_amended_determinism :
    ∀ (records : List Gunlog.Content.CRecord) (now1 now2 : Gunlog.PyDateTime),
      (∀ r ∈ records, (Gunlog.parse_time_core r.time_str).isSome) →
      Gunlog.Content.noTrend (Gunlog.Content.runContent now1 records)
        = Gunlog.Content.noTrend (Gunlog.Content.runContent now2 records) := by
  intro records now1 now2 hp
  exact Gunlog.Content.foldl_noTrend records now1 now2
    Gunlog.Content.initC Gunlog.Content.initC hp rfl

/-- Witness for C9 amended: the two counterexample runs, which differ in
trending, agree on everything else. -/
theorem C9_amended_determinism_witness :
    Gunlog.Content.noTrend (Gunlog.Content.runContent ⟨2023, 10, 10, 14, 0, 0⟩
        [⟨"1.1.1.1", "10/Oct/2023:13:55:36 +0200", "/a", 200, "test-agent"⟩])
      = Gunlog.Content.noTrend (Gunlog.Content.runContent ⟨2024, 1, 1, 0, 0, 0⟩
        [⟨"1.1.1.1", "10/Oct/2023:13:55:36 +0200", "/a", 200, "test-agent"⟩]) :=
  C9_amended_determinism
    [⟨"1.1.1.1", "10/Oct/2023:13:55:36 +0200", "/a", 200, "test-agent"⟩]
    ⟨2023, 10, 10, 14, 0, 0⟩ ⟨2024, 1, 1, 0, 0, 0⟩
    (by intro r hr; simp at hr; rw [hr]; decide)
